import Mathlib

/-!
Verification of the URL-shortening worker (src/index.js) against its
specification.  The worker's two handlers, `handleCreate` and
`handleRedirect`, its URL / custom-id validation and its random-id
generator are embedded as executable Lean functions; the Cloudflare KV
namespace is modelled as an association list together with a flag saying
whether a read throws, and every put a handler issues is returned
explicitly so that frame conditions are statable.
-/

namespace Tiaozhuan

/-- ASCII letter test: the ranges `a-z` and `A-Z`, exactly the letter part of
the character class `[a-zA-Z0-9_-]` of the source regex and of the URL scheme
grammar. -/
def isAsciiAlpha (c : Char) : Bool :=
  (('a' ≤ c) && (c ≤ 'z')) || (('A' ≤ c) && (c ≤ 'Z'))

/-- ASCII digit test, the range `0-9`. -/
def isAsciiDigit (c : Char) : Bool :=
  ('0' ≤ c) && (c ≤ '9')

/-- Characters allowed after the first character of a URL scheme. -/
def isSchemeChar (c : Char) : Bool :=
  isAsciiAlpha c || isAsciiDigit c || c = '+' || c = '-' || c = '.'

/-- The record the modelled URL constructor produces: only the fields the
worker's behaviour can depend on (scheme and host). -/
structure URLRecord where
  scheme : String
  host : String
deriving DecidableEq, Repr

/-- The special schemes of the WHATWG URL Standard: these are parsed with an
authority, and all of them except `file` require a non-empty host. -/
def specialSchemes : List String := ["ftp", "file", "http", "https", "ws", "wss"]

/-- Scan scheme characters until the terminating `:`.  Returns the scheme
characters and the remainder, or `none` when no `:`-terminated scheme is
present (a relative URL, which the bare `new URL(x)` call rejects). -/
def takeScheme : List Char → List Char → Option (List Char × List Char)
  | _, [] => none
  | acc, c :: rest =>
    if c = ':' then some (acc.reverse, rest)
    else if isSchemeChar c then takeScheme (c :: acc) rest
    else none

/-- Split off the scheme of a URL: first character must be an ASCII letter,
then scheme characters up to a `:`. -/
def splitScheme : List Char → Option (List Char × List Char)
  | [] => none
  | c :: rest => if isAsciiAlpha c then takeScheme [c] rest else none

/-- Input preprocessing of the URL parser: remove every tab, LF and CR, and
trim C0-control and space characters from both ends. -/
def preprocess (s : List Char) : List Char :=
  let noTabNl := s.filter (fun c => !(c = '\t' || c = '\n' || c = '\r'))
  ((noTabNl.dropWhile (fun c => c ≤ ' ')).reverse.dropWhile (fun c => c ≤ ' ')).reverse

/-- Characters ending the authority component (`special` adds `\`). -/
def isAuthorityEnd (special : Bool) (c : Char) : Bool :=
  c = '/' || c = '?' || c = '#' || (special && c = '\\')

/-- Strip the userinfo: the host-port part of an authority is what follows
the last `@`, or the whole authority when there is none. -/
def hostPortOf (auth : List Char) : List Char :=
  if auth.contains '@' then (auth.reverse.takeWhile (fun c => c ≠ '@')).reverse
  else auth

/-- A few of the code points the URL Standard forbids in a host (enough for
the behaviour the worker depends on: they make parsing fail). -/
def isForbiddenHostChar (c : Char) : Bool :=
  c = ' ' || c = '<' || c = '>' || c = '"' || c = '|' || c = '^'

/-- Parse an authority into a `URLRecord`: split off userinfo and port,
reject an empty host when the scheme requires one or when userinfo is
present, reject forbidden host characters and a non-numeric port. -/
def parseAuthority (requireHost : Bool) (auth : List Char) (scheme : String) :
    Option URLRecord :=
  let hostport := hostPortOf auth
  let host := hostport.takeWhile (fun c => c ≠ ':')
  let portPart := hostport.dropWhile (fun c => c ≠ ':')
  if host.isEmpty && requireHost then none
  else if host.isEmpty && auth.contains '@' then none
  else if host.any isForbiddenHostChar then none
  else if !((portPart.drop 1).all isAsciiDigit) then none
  else some ⟨scheme, String.mk host⟩

/-- The scheme as the URL parser records it: lowercased. -/
def schemeOf (schemeChars : List Char) : String :=
  String.mk (schemeChars.map Char.toLower)

/-- After the scheme of a `file` or non-special URL: an authority is parsed
only when `//` follows immediately (and an empty host is then allowed);
anything else is an opaque or absolute path with no host. -/
def parseAfterScheme (special : Bool) (scheme : String) (rest : List Char) :
    Option URLRecord :=
  if rest.take 2 = ['/', '/'] then
    parseAuthority false
      ((rest.drop 2).takeWhile (fun c => !(isAuthorityEnd special c))) scheme
  else some ⟨scheme, ""⟩

/-- Modelled from the spec: the platform `URL` constructor called by
`isValidUrl` (src/index.js line 94) is a host-environment builtin whose code
is not under src/.  This follows the WHATWG URL Standard's basic parser on
the fragment the worker can observe (success or `TypeError`, and the parsed
host): an absolute URL needs a letter-initial `:`-terminated scheme; special
schemes (`http`, `https`, `ws`, `wss`, `ftp`) skip any run of slashes and
then require a non-empty, well-formed host; `file` takes an authority after
`//` and its host may be empty; a non-special scheme takes an authority only
after `//` and otherwise has an opaque path and an empty host. -/
def parseURL (input : String) : Option URLRecord :=
  match splitScheme (preprocess input.data) with
  | none => none
  | some (schemeChars, rest) =>
    if schemeOf schemeChars = "file" then
      parseAfterScheme true (schemeOf schemeChars) rest
    else if specialSchemes.contains (schemeOf schemeChars) then
      parseAuthority true
        ((rest.dropWhile (fun c => c = '/' || c = '\\')).takeWhile
          (fun c => !(isAuthorityEnd true c)))
        (schemeOf schemeChars)
    else parseAfterScheme false (schemeOf schemeChars) rest

/-- `isValidUrl` (src/index.js lines 92-99): `new URL(url)` inside
try/catch — true iff construction succeeds. -/
def isValidUrl (url : String) : Bool := (parseURL url).isSome

/-- JavaScript string conversion of a possibly-`undefined` value, as applied
by `new URL(url)` to a missing JSON field. -/
def jsToString : Option String → String
  | none => "undefined"
  | some s => s

/-- JavaScript truthiness of a string: every string except `""` is truthy. -/
def jsTruthy (s : String) : Bool := !(s = "")

/-- JavaScript truthiness of a `string | null | undefined` value. -/
def jsTruthyOpt : Option String → Bool
  | none => false
  | some s => jsTruthy s

/-- The alphabet of `generateRandomId` (src/index.js line 103), verbatim. -/
def chars : String :=
  "abcdefghijklmnopqrstuvwxyzABCDEFGHIJKLMNOPQRSTUVWXYZ0123456789"

/-- `chars.charAt(i)` for an index known to be below 62 (the value
`Math.floor(Math.random() * chars.length)` always is). -/
def charAt (i : Fin 62) : Char := chars.data.getD i.val ' '

/-- `generateRandomId` (src/index.js lines 102-109).  The loop
`result += chars.charAt(Math.floor(Math.random() * chars.length))` is the
fold below; the successive draws `Math.floor(Math.random() * 62)` — uniform
on `0..61` when `Math.random()` is uniform on `[0,1)` — are supplied as the
function `rand`. -/
def generateRandomId (length : Nat) (rand : Nat → Fin 62) : String :=
  (List.range length).foldl (fun result i => result.push (charAt (rand i))) ""

/-- The inline regex test `/^[a-zA-Z0-9_-]+$/.test(shortId)`
(src/index.js line 65): non-empty, every character a letter, digit,
underscore or hyphen (the spec's `IsValidCustomId`). -/
def isValidCustomId (s : String) : Bool :=
  !(s = "") && s.data.all (fun c => isAsciiAlpha c || isAsciiDigit c || c = '_' || c = '-')

/-- A single KV write: key and value. -/
abbrev Put := String × String

/-- The KV namespace binding `env.URL_KV`: its current contents, plus a flag
telling whether a `get` throws (connectivity failure). -/
structure KVEnv where
  store : List (String × String)
  readFails : Bool
deriving DecidableEq, Repr

/-- Lookup in the KV contents (first binding for the key wins; keys are kept
unique by `kvPutStore`). -/
def kvLookup : List (String × String) → String → Option String
  | [], _ => none
  | (k2, v) :: rest, k => if k2 = k then some v else kvLookup rest k

/-- `await env.URL_KV.get(key)`: throws when the read fails, otherwise
returns the stored value or `null`. -/
def kvGet (env : KVEnv) (k : String) : Except Unit (Option String) :=
  if env.readFails then .error () else .ok (kvLookup env.store k)

/-- `env.URL_KV.put(key, value)` applied to the contents: KV overwrites an
existing key. -/
def kvPutStore : List (String × String) → String → String → List (String × String)
  | [], k, v => [(k, v)]
  | (k2, v2) :: rest, k, v =>
    if k2 = k then (k, v) :: rest else (k2, v2) :: kvPutStore rest k v

/-- Apply a list of issued puts to the KV contents, in order. -/
def applyPuts (st : List (String × String)) (puts : List Put) : List (String × String) :=
  puts.foldl (fun s p => kvPutStore s p.1 p.2) st

/-- An HTTP response as far as the spec's claims observe it: status, body,
and the `Location` header for redirects. -/
structure Response where
  status : Nat
  body : String
  location : Option String
deriving DecidableEq, Repr

/-- The outcome of `await request.json()` followed by the destructuring
`const { longUrl, customId } = ...`: either the body was not parseable JSON
(the call threw), or it yields the two fields, each possibly absent. -/
inductive RequestBody where
  | malformed
  | parsed (longUrl : Option String) (customId : Option String)
deriving DecidableEq, Repr

/-- The JSON success body `JSON.stringify({ shortUrl, longUrl })`. -/
def jsonStringifyCreate (shortUrl longUrl : String) : String :=
  "\x7b\"shortUrl\":\"" ++ shortUrl ++ "\",\"longUrl\":\"" ++ longUrl ++ "\"\x7d"

/-- `handleCreate` (src/index.js lines 49-89).  Returns the response
together with the list of KV puts the handler issued (line 77's
`ctx.waitUntil(env.URL_KV.put(...))`), so that store effects are explicit.
`origin` is `new URL(request.url).origin`; `rand` supplies the draws of
`Math.random`.  Any exception — the JSON parse, or a throwing KV `get` —
lands in the catch block and yields 500. -/
def handleCreate (env : KVEnv) (origin : String) (body : RequestBody)
    (rand : Nat → Fin 62) : Response × List Put :=
  match body with
  | .malformed => (⟨500, "Internal Server Error", none⟩, [])
  | .parsed longUrl customId =>
    if !(isValidUrl (jsToString longUrl)) then
      (⟨400, "Invalid URL", none⟩, [])
    else
      let L := jsToString longUrl
      if !(jsTruthyOpt customId) then
        let shortId := generateRandomId 6 rand
        (⟨201, jsonStringifyCreate (origin ++ "/" ++ shortId) L, none⟩, [(shortId, L)])
      else
        let shortId := customId.getD ""
        if !(isValidCustomId shortId) then
          (⟨400, "Custom ID can only contain letters, numbers, hyphens, and underscores", none⟩, [])
        else
          match kvGet env shortId with
          | .error _ => (⟨500, "Internal Server Error", none⟩, [])
          | .ok existingUrl =>
            if jsTruthyOpt existingUrl then
              (⟨409, "Custom ID already exists", none⟩, [])
            else
              (⟨201, jsonStringifyCreate (origin ++ "/" ++ shortId) L, none⟩, [(shortId, L)])

/-- `handleRedirect` (src/index.js lines 31-46), with the issued puts made
explicit (there are none in the source).  A throwing KV `get` lands in the
catch block (500); a truthy stored value is passed to
`Response.redirect(longUrl, 302)`, which itself throws — hence 500 via the
same catch — if `longUrl` is not a valid absolute URL; a `null` or empty
value yields the 404. -/
def handleRedirect (env : KVEnv) (shortId : String) : Response × List Put :=
  match kvGet env shortId with
  | .error _ => (⟨500, "Internal Server Error", none⟩, [])
  | .ok none => (⟨404, "Short link not found", none⟩, [])
  | .ok (some longUrl) =>
    if jsTruthy longUrl then
      if isValidUrl longUrl then (⟨302, "", some longUrl⟩, [])
      else (⟨500, "Internal Server Error", none⟩, [])
    else (⟨404, "Short link not found", none⟩, [])

/-- A concrete sequence of random draws: indices 0,1,2,53,54,55 of `chars`,
so that `generateRandomId 6` yields the string `abc123`. -/
def randABC123 : Nat → Fin 62 := fun i =>
  match i with
  | 0 => 0
  | 1 => 1
  | 2 => 2
  | 3 => 53
  | 4 => 54
  | 5 => 55
  | _ => 0

end Tiaozhuan

namespace Tiaozhuan

/-- Unrolling the `result += chars.charAt(...)` loop: folding `push` over a
list of indices appends the corresponding characters. -/
theorem data_foldl_push (f : Nat → Char) :
    ∀ (l : List Nat) (s : String),
      (l.foldl (fun r i => r.push (f i)) s).data = s.data ++ l.map f
  | [], s => by simp
  | a :: t, s => by
    simp [List.foldl_cons, data_foldl_push f t, String.data_push]

/-- Closed form of `generateRandomId`: character `i` of the result is
`chars.charAt` of the `i`-th random draw. -/
theorem generateRandomId_data (n : Nat) (rand : Nat → Fin 62) :
    (generateRandomId n rand).data = (List.range n).map (fun i => charAt (rand i)) := by
  unfold generateRandomId
  rw [data_foldl_push]
  simp

/-- The generated identifier has exactly the requested length. -/
theorem generateRandomId_length (n : Nat) (rand : Nat → Fin 62) :
    (generateRandomId n rand).length = n := by
  show (generateRandomId n rand).data.length = n
  rw [generateRandomId_data]
  simp

/-- A string the URL constructor accepts is never empty. -/
theorem isValidUrl_ne_empty (s : String) (h : isValidUrl s = true) : s ≠ "" := by
  intro he
  rw [he] at h
  exact absurd h (by decide)

/-- A successful KV lookup returns a value actually bound in the contents. -/
theorem kvLookup_mem : ∀ (st : List (String × String)) (k v : String),
    kvLookup st k = some v → (k, v) ∈ st
  | [], k, v, h => by simp [kvLookup] at h
  | (k2, v2) :: rest, k, v, h => by
    unfold kvLookup at h
    split at h
    · rename_i heq
      rw [Option.some_inj] at h
      rw [← heq, ← h]
      exact List.mem_cons_self _ _
    · exact List.mem_cons_of_mem _ (kvLookup_mem rest k v h)

/-- Reading back the key just written returns the value just written. -/
theorem kvLookup_putStore_self : ∀ (st : List (String × String)) (k v : String),
    kvLookup (kvPutStore st k v) k = some v
  | [], k, v => by simp [kvPutStore, kvLookup]
  | (k2, v2) :: rest, k, v => by
    by_cases hk : k2 = k
    · simp [kvPutStore, hk, kvLookup]
    · simp [kvPutStore, hk, kvLookup, kvLookup_putStore_self rest k v]

/-- Resolving a key right after its mapping was stored redirects (302) to the
stored URL, provided that URL is valid — which every stored URL is. -/
theorem redirect_after_put (st : List (String × String)) (sid L : String)
    (hL : isValidUrl L = true) :
    handleRedirect ⟨kvPutStore st sid L, false⟩ sid = (⟨302, "", some L⟩, []) := by
  have hne : L ≠ "" := isValidUrl_ne_empty L hL
  simp [handleRedirect, kvGet, kvLookup_putStore_self, jsTruthy, hne, hL]

/-- `handleRedirect` never issues a KV put. -/
theorem handleRedirect_snd (env : KVEnv) (sid : String) :
    (handleRedirect env sid).2 = [] := by
  unfold handleRedirect
  rcases kvGet env sid with e | v
  · rfl
  · rcases v with _ | s
    · rfl
    · by_cases h1 : jsTruthy s = true
      · by_cases h2 : isValidUrl s = true
        · simp [h1, h2]
        · simp [h1, h2]
      · simp [h1]

end Tiaozhuan

namespace Tiaozhuan

/-- Claim C1 counterexample: a POST to /api/create with an unparseable JSON
body gets status 500, not the 400 the claim asserts — `request.json()`
throws into the catch-all of `handleCreate`. -/
theorem C1_counterexample :
    (handleCreate ⟨[], false⟩ "https://sho.rt" .malformed randABC123).1.status = 500 ∧
    ¬ (handleCreate ⟨[], false⟩ "https://sho.rt" .malformed randABC123).1.status = 400 := by
  exact ⟨rfl, by decide⟩

/-- Claim C1 (amended): for every POST to /api/create whose body is not
parseable JSON, the service responds with HTTP status 500 and body
"Internal Server Error" (the generic catch block), and issues no store
write. -/
theorem C1_malformed_json_yields_500 (env : KVEnv) (origin : String)
    (rand : Nat → Fin 62) :
    handleCreate env origin .malformed rand =
      (⟨500, "Internal Server Error", none⟩, []) := rfl

/-- Claim C2 counterexample: with `abc123` already bound in the store, a
create without customId whose random draws produce `abc123` still succeeds
(201) and issues a put for that key — the existing mapping is silently
overwritten, contradicting the claim for auto-generated ids. -/
theorem C2_counterexample :
    kvLookup [("abc123", "https://old.example/")] "abc123" = some "https://old.example/" ∧
    (handleCreate ⟨[("abc123", "https://old.example/")], false⟩ "https://sho.rt"
        (.parsed (some "https://new.example/") none) randABC123).2 =
      [("abc123", "https://new.example/")] ∧
    (handleCreate ⟨[("abc123", "https://old.example/")], false⟩ "https://sho.rt"
        (.parsed (some "https://new.example/") none) randABC123).1.status = 201 := by
  exact ⟨rfl, rfl, rfl⟩

/-- Claim C2 (amended): only for a caller-supplied customId does creation
fail with no put issued when the chosen shortId is already bound (to a
non-empty value) in the store; an auto-generated shortId is written without
any existence check and can silently overwrite. -/
theorem C2_custom_id_never_overwrites (env : KVEnv) (origin : String)
    (longUrl : Option String) (cid : String) (rand : Nat → Fin 62)
    (hne : cid ≠ "")
    (hex : jsTruthyOpt (kvLookup env.store cid) = true) :
    (handleCreate env origin (.parsed longUrl (some cid)) rand).2 = [] ∧
    (handleCreate env origin (.parsed longUrl (some cid)) rand).1.status ≠ 201 := by
  unfold handleCreate
  by_cases hurl : isValidUrl (jsToString longUrl) = true
  · have ht : jsTruthyOpt (some cid) = true := by
      simp [jsTruthyOpt, jsTruthy, hne]
    by_cases hid : isValidCustomId cid = true
    · rcases hrf : env.readFails with _ | _
      · simp [hurl, ht, hid, kvGet, hrf, hex]
      · simp [hurl, ht, hid, kvGet, hrf]
    · simp [hurl, ht, hid]
  · simp [hurl]

/-- Claim C2 witness: the amended statement at a concrete conflicting
custom-id create. -/
theorem C2_custom_id_never_overwrites_witness :
    (handleCreate ⟨[("aa", "https://x.example/")], false⟩ "https://sho.rt"
        (.parsed (some "https://e.example/") (some "aa")) randABC123).2 = [] ∧
    (handleCreate ⟨[("aa", "https://x.example/")], false⟩ "https://sho.rt"
        (.parsed (some "https://e.example/") (some "aa")) randABC123).1.status ≠ 201 :=
  C2_custom_id_never_overwrites ⟨[("aa", "https://x.example/")], false⟩ "https://sho.rt"
    (some "https://e.example/") "aa" randABC123 (by decide) (by decide)

/-- Claim C4 counterexample: a supplied empty-string customId does not fail
with 400 — it is falsy, so the code treats it as absent, auto-generates an
id and succeeds with 201, issuing a store write. -/
theorem C4_counterexample :
    (handleCreate ⟨[], false⟩ "https://sho.rt"
        (.parsed (some "https://example.com") (some "")) randABC123).1.status = 201 ∧
    (handleCreate ⟨[], false⟩ "https://sho.rt"
        (.parsed (some "https://example.com") (some "")) randABC123).2 =
      [("abc123", "https://example.com")] := by
  exact ⟨rfl, rfl⟩

/-- Claim C4 (amended): for a create request with a valid longUrl and a
supplied *non-empty* customId that does not match `^[a-zA-Z0-9_-]+$`, the
operation fails with status 400 and the fixed message, and no store write
occurs; a supplied empty-string customId is instead treated as absent and
triggers auto-generation. -/
theorem C4_invalid_custom_id_rejected (env : KVEnv) (origin : String)
    (longUrl : Option String) (cid : String) (rand : Nat → Fin 62)
    (hurl : isValidUrl (jsToString longUrl) = true)
    (hne : cid ≠ "")
    (hbad : isValidCustomId cid = false) :
    handleCreate env origin (.parsed longUrl (some cid)) rand =
      (⟨400, "Custom ID can only contain letters, numbers, hyphens, and underscores", none⟩,
        []) := by
  unfold handleCreate
  have ht : jsTruthyOpt (some cid) = true := by
    simp [jsTruthyOpt, jsTruthy, hne]
  simp [hurl, ht, hbad]

/-- Claim C4 witness: the amended statement at the spec's own example
`"bad id!"`. -/
theorem C4_invalid_custom_id_rejected_witness :
    handleCreate ⟨[], false⟩ "https://sho.rt"
        (.parsed (some "https://e.example/") (some "bad id!")) randABC123 =
      (⟨400, "Custom ID can only contain letters, numbers, hyphens, and underscores", none⟩,
        []) :=
  C4_invalid_custom_id_rejected ⟨[], false⟩ "https://sho.rt" (some "https://e.example/")
    "bad id!" randABC123 (by decide) (by decide) (by decide)

end Tiaozhuan

namespace Tiaozhuan

/-- A record produced by `parseAuthority` carries the scheme it was given. -/
theorem parseAuthority_scheme (requireHost : Bool) (auth : List Char)
    (scheme : String) (r : URLRecord)
    (h : parseAuthority requireHost auth scheme = some r) : r.scheme = scheme := by
  simp only [parseAuthority] at h
  split_ifs at h
  rw [Option.some_inj] at h
  rw [← h]

/-- When a host is required, `parseAuthority` succeeds only with a non-empty
one. -/
theorem parseAuthority_requireHost (auth : List Char) (scheme : String)
    (r : URLRecord) (h : parseAuthority true auth scheme = some r) :
    r.host ≠ "" := by
  simp only [parseAuthority] at h
  split_ifs at h with h1 h2 h3 h4
  rw [Option.some_inj] at h
  rw [← h]
  intro he
  apply h1
  have hnil : (hostPortOf auth).takeWhile (fun c => c ≠ ':') = [] := by
    simpa using congrArg String.data he
  rw [hnil]
  rfl

/-- A record produced by `parseAfterScheme` carries the scheme it was
given. -/
theorem parseAfterScheme_scheme (special : Bool) (scheme : String)
    (rest : List Char) (r : URLRecord)
    (h : parseAfterScheme special scheme rest = some r) : r.scheme = scheme := by
  simp only [parseAfterScheme] at h
  split_ifs at h
  · exact parseAuthority_scheme false _ scheme r h
  · rw [Option.some_inj] at h
    rw [← h]

/-- A URL whose scheme is special and not `file` parses only with a
non-empty host. -/
theorem parseURL_special_host (s : String) (r : URLRecord)
    (h : parseURL s = some r)
    (hs : r.scheme ∈ ["ftp", "http", "https", "ws", "wss"]) : r.host ≠ "" := by
  unfold parseURL at h
  cases hsp : splitScheme (preprocess s.data) with
  | none => rw [hsp] at h; exact absurd h (by simp)
  | some p =>
    obtain ⟨schemeChars, rest⟩ := p
    rw [hsp] at h
    dsimp only at h
    by_cases hf : schemeOf schemeChars = "file"
    · rw [if_pos hf] at h
      have hsch := parseAfterScheme_scheme true _ rest r h
      rw [hf] at hsch
      rw [hsch] at hs
      simp at hs
    · rw [if_neg hf] at h
      by_cases hct : specialSchemes.contains (schemeOf schemeChars) = true
      · rw [if_pos hct] at h
        exact parseAuthority_requireHost _ _ r h
      · rw [if_neg hct] at h
        have hsch := parseAfterScheme_scheme false _ rest r h
        exfalso
        apply hct
        rw [← hsch]
        simp only [List.mem_cons, List.not_mem_nil, or_false] at hs
        rcases hs with hh | hh | hh | hh | hh <;> rw [hh] <;> decide

/-- Claim C3 counterexample: `mailto:user@example.com` has no parseable host
(the URL constructor records an empty host for it), yet `isValidUrl` accepts
it and a create with it as longUrl succeeds with 201 instead of failing with
`InvalidUrl` — the "and a host" part of the claim is false. -/
theorem C3_counterexample :
    isValidUrl "mailto:user@example.com" = true ∧
    parseURL "mailto:user@example.com" = some ⟨"mailto", ""⟩ ∧
    (handleCreate ⟨[], false⟩ "https://sho.rt"
        (.parsed (some "mailto:user@example.com") none) randABC123).1.status = 201 := by
  exact ⟨rfl, rfl, rfl⟩

/-- Claim C3 (amended): `isValidUrl s` is true iff `s` parses as an absolute
URL; a non-empty host is required only for the special schemes `ftp`,
`http`, `https`, `ws`, `wss` (so hostless URLs with other schemes, such as
`mailto:`, are accepted); and every string that fails to parse makes Create
fail with `InvalidUrl` (status 400, body "Invalid URL") and no store
write. -/
theorem C3_validUrl_characterization :
    (∀ s : String, isValidUrl s = (parseURL s).isSome) ∧
    (∀ (s : String) (r : URLRecord), parseURL s = some r →
        r.scheme ∈ ["ftp", "http", "https", "ws", "wss"] → r.host ≠ "") ∧
    (∀ (env : KVEnv) (origin : String) (longUrl : Option String)
        (customId : Option String) (rand : Nat → Fin 62),
        isValidUrl (jsToString longUrl) = false →
        handleCreate env origin (.parsed longUrl customId) rand =
          (⟨400, "Invalid URL", none⟩, [])) := by
  refine ⟨fun s => rfl, parseURL_special_host, ?_⟩
  intro env origin longUrl customId rand hbad
  simp [handleCreate, hbad]

/-- Claim C3 witness: the amended characterization applied at concrete
inputs — `https://example.com` parses with the non-empty host
`example.com`, and the spec's own non-URL example `"not a url"` is rejected
with 400 and no put. -/
theorem C3_validUrl_characterization_witness :
    isValidUrl "https://example.com" = (parseURL "https://example.com").isSome ∧
    URLRecord.host ⟨"https", "example.com"⟩ ≠ "" ∧
    handleCreate ⟨[], false⟩ "https://sho.rt" (.parsed (some "not a url") none) randABC123 =
      (⟨400, "Invalid URL", none⟩, []) :=
  ⟨C3_validUrl_characterization.1 "https://example.com",
   C3_validUrl_characterization.2.1 "https://example.com" ⟨"https", "example.com"⟩
     (by decide) (by decide),
   C3_validUrl_characterization.2.2 ⟨[], false⟩ "https://sho.rt" (some "not a url") none
     randABC123 (by decide)⟩

/-- Claim C5: a create without customId generates an id of length exactly 6;
character `i` of the result is `chars.charAt` of the `i`-th random draw,
where `chars` is the 62-character alphanumeric alphabet (26 lower + 26 upper
+ 10 digits, no repetitions) — so with each draw independently uniform on
`0..61` (which `Math.floor(Math.random() * 62)` is for uniform
`Math.random()`), each character is independently uniform over the 62
symbols. -/
theorem C5_generated_id_length_and_alphabet (rand : Nat → Fin 62) :
    (generateRandomId 6 rand).length = 6 ∧
    (generateRandomId 6 rand).data = (List.range 6).map (fun i => charAt (rand i)) ∧
    (∀ i : Fin 62, charAt i ∈ chars.data) ∧
    chars.data.Nodup ∧
    chars.length = 62 := by
  refine ⟨generateRandomId_length 6 rand, generateRandomId_data 6 rand, ?_, ?_, rfl⟩
  · decide
  · decide

/-- Claim C6: round-trip — if a create with longUrl `L` succeeds (201), the
single put it issued binds some shortId to exactly `L`, and resolving that
shortId against the store with that put applied redirects (302) with
`Location` exactly `L`. -/
theorem C6_round_trip (env : KVEnv) (origin : String) (longUrl : String)
    (customId : Option String) (rand : Nat → Fin 62) (resp : Response)
    (puts : List Put)
    (h : handleCreate env origin (.parsed (some longUrl) customId) rand = (resp, puts))
    (h201 : resp.status = 201) :
    ∃ shortId, puts = [(shortId, longUrl)] ∧
      handleRedirect ⟨applyPuts env.store puts, false⟩ shortId =
        (⟨302, "", some longUrl⟩, []) := by
  unfold handleCreate at h
  by_cases hurl : isValidUrl (jsToString (some longUrl)) = true
  · have hurl2 : isValidUrl longUrl = true := hurl
    rcases customId with _ | cid
    · simp [hurl, hurl2, jsToString, jsTruthyOpt, jsToString] at h
      obtain ⟨h1, h2⟩ := h
      subst h2
      exact ⟨generateRandomId 6 rand, rfl,
        redirect_after_put env.store (generateRandomId 6 rand) longUrl hurl2⟩
    · by_cases hcid : jsTruthy cid = true
      · by_cases hid : isValidCustomId cid = true
        · rcases hrf : env.readFails with _ | _
          · rcases hex : kvLookup env.store cid with _ | v
            · simp [hurl, hurl2, jsToString, jsTruthyOpt, hcid, hid, kvGet, hrf, hex, jsToString] at h
              obtain ⟨h1, h2⟩ := h
              subst h2
              exact ⟨cid, rfl, redirect_after_put env.store cid longUrl hurl2⟩
            · by_cases hv : jsTruthy v = true
              · simp [hurl, hurl2, jsToString, jsTruthyOpt, hcid, hid, kvGet, hrf, hex, hv] at h
                obtain ⟨h1, h2⟩ := h
                rw [← h1] at h201
                exact absurd h201 (by decide)
              · simp [hurl, hurl2, jsToString, jsTruthyOpt, hcid, hid, kvGet, hrf, hex, hv,
                  jsToString] at h
                obtain ⟨h1, h2⟩ := h
                subst h2
                exact ⟨cid, rfl, redirect_after_put env.store cid longUrl hurl2⟩
          · simp [hurl, hurl2, jsToString, jsTruthyOpt, hcid, hid, kvGet, hrf] at h
            obtain ⟨h1, h2⟩ := h
            rw [← h1] at h201
            exact absurd h201 (by decide)
        · simp [hurl, hurl2, jsToString, jsTruthyOpt, hcid, hid] at h
          obtain ⟨h1, h2⟩ := h
          rw [← h1] at h201
          exact absurd h201 (by decide)
      · simp [hurl, hurl2, jsToString, jsTruthyOpt, hcid, jsToString] at h
        obtain ⟨h1, h2⟩ := h
        subst h2
        exact ⟨generateRandomId 6 rand, rfl,
          redirect_after_put env.store (generateRandomId 6 rand) longUrl hurl2⟩
  · have hurl2 : isValidUrl longUrl = false := by simpa using hurl
    simp [hurl, hurl2, jsToString] at h
    obtain ⟨h1, h2⟩ := h
    rw [← h1] at h201
    exact absurd h201 (by decide)

/-- Claim C6 witness: the round-trip theorem at a concrete successful create
with the custom id `my-id`. -/
theorem C6_round_trip_witness :
    ∃ shortId, [("my-id", "https://example.com/")] =
        [(shortId, "https://example.com/")] ∧
      handleRedirect ⟨applyPuts [] [("my-id", "https://example.com/")], false⟩ shortId =
        (⟨302, "", some "https://example.com/"⟩, []) :=
  C6_round_trip ⟨[], false⟩ "https://sho.rt" "https://example.com/" (some "my-id")
    randABC123
    ⟨201, jsonStringifyCreate "https://sho.rt/my-id" "https://example.com/", none⟩
    [("my-id", "https://example.com/")] (by decide) (by decide)

/-- Claim C7: a create with a valid longUrl and a well-formed customId that
is already bound in the store (to a non-empty value, which every stored
value is) fails with 409 and body "Custom ID already exists", issuing no
put — the store is left unchanged. -/
theorem C7_conflict_409 (env : KVEnv) (origin : String) (longUrl cid v : String)
    (rand : Nat → Fin 62)
    (hurl : isValidUrl longUrl = true)
    (hid : isValidCustomId cid = true)
    (hrf : env.readFails = false)
    (hv : kvLookup env.store cid = some v)
    (hvne : v ≠ "") :
    handleCreate env origin (.parsed (some longUrl) (some cid)) rand =
      (⟨409, "Custom ID already exists", none⟩, []) := by
  have hne : cid ≠ "" := by
    intro he
    rw [he] at hid
    exact absurd hid (by decide)
  unfold handleCreate
  simp [hurl, jsToString, jsTruthyOpt, jsTruthy, hne, hid, kvGet, hrf, hv, hvne]

/-- Claim C7 witness: the conflict theorem at a concrete store already
holding the custom id `aa`. -/
theorem C7_conflict_409_witness :
    handleCreate ⟨[("aa", "https://x.example/")], false⟩ "https://sho.rt"
        (.parsed (some "https://e.example/") (some "aa")) randABC123 =
      (⟨409, "Custom ID already exists", none⟩, []) :=
  C7_conflict_409 ⟨[("aa", "https://x.example/")], false⟩ "https://sho.rt"
    "https://e.example/" "aa" "https://x.example/" randABC123
    (by decide) (by decide) rfl (by decide) (by decide)

/-- Claim C8: on a store whose values are all valid URLs (as every value
written by create is), a resolve has exactly the three outcomes — 302 with
`Location` equal to the stored longUrl when the key is bound, 404 with body
"Short link not found" when it is not, and 500 when the store read itself
fails. -/
theorem C8_resolve_trichotomy (env : KVEnv) (sid : String)
    (hvalid : ∀ p ∈ env.store, isValidUrl p.2 = true) :
    (env.readFails = true →
      handleRedirect env sid = (⟨500, "Internal Server Error", none⟩, [])) ∧
    (∀ v, env.readFails = false → kvLookup env.store sid = some v →
      handleRedirect env sid = (⟨302, "", some v⟩, [])) ∧
    (env.readFails = false → kvLookup env.store sid = none →
      handleRedirect env sid = (⟨404, "Short link not found", none⟩, [])) := by
  refine ⟨?_, ?_, ?_⟩
  · intro hrf
    simp [handleRedirect, kvGet, hrf]
  · intro v hrf hv
    have hmem := kvLookup_mem env.store sid v hv
    have hval : isValidUrl v = true := hvalid (sid, v) hmem
    have hne : v ≠ "" := isValidUrl_ne_empty v hval
    simp [handleRedirect, kvGet, hrf, hv, jsTruthy, hne, hval]
  · intro hrf hv
    simp [handleRedirect, kvGet, hrf, hv]

/-- Claim C8 witness: the trichotomy at a concrete one-entry store — a hit,
a miss, and a failing read. -/
theorem C8_resolve_trichotomy_witness :
    handleRedirect ⟨[("aa", "https://x.example/")], false⟩ "aa" =
      (⟨302, "", some "https://x.example/"⟩, []) ∧
    handleRedirect ⟨[("aa", "https://x.example/")], false⟩ "bb" =
      (⟨404, "Short link not found", none⟩, []) ∧
    handleRedirect ⟨[("aa", "https://x.example/")], true⟩ "aa" =
      (⟨500, "Internal Server Error", none⟩, []) :=
  ⟨(C8_resolve_trichotomy ⟨[("aa", "https://x.example/")], false⟩ "aa"
      (by decide)).2.1 "https://x.example/" rfl (by decide),
   (C8_resolve_trichotomy ⟨[("aa", "https://x.example/")], false⟩ "bb"
      (by decide)).2.2 rfl (by decide),
   (C8_resolve_trichotomy ⟨[("aa", "https://x.example/")], true⟩ "aa"
      (by decide)).1 rfl⟩

/-- Claim C9: resolve performs no store writes — the list of puts it issues
is empty, the store after a resolve equals the store before it, and a
repeated resolve against the resulting store returns the identical
response. -/
theorem C9_resolve_no_writes (env : KVEnv) (sid : String) :
    (handleRedirect env sid).2 = [] ∧
    applyPuts env.store (handleRedirect env sid).2 = env.store ∧
    handleRedirect ⟨applyPuts env.store (handleRedirect env sid).2, env.readFails⟩ sid =
      handleRedirect env sid := by
  have h2 := handleRedirect_snd env sid
  refine ⟨h2, ?_, ?_⟩
  · rw [h2]
    rfl
  · rw [h2]
    rfl

/-- Claim C10: every value a create ever puts into the store is a valid URL
and hence non-empty (the URL gate rejects the empty string), and on any
store whose values are non-empty the code's truthiness test on a fetched
value coincides exactly with key presence — used by both the custom-id
existence check and the resolve lookup, which both go through
`kvLookup`. -/
theorem C10_store_values_truthy :
    (∀ (env : KVEnv) (origin : String) (body : RequestBody) (rand : Nat → Fin 62)
        (p : Put), p ∈ (handleCreate env origin body rand).2 →
        isValidUrl p.2 = true ∧ p.2 ≠ "") ∧
    (∀ (st : List (String × String)) (k : String), (∀ q ∈ st, q.2 ≠ "") →
        (jsTruthyOpt (kvLookup st k) = true ↔ (kvLookup st k).isSome = true)) := by
  constructor
  · intro env origin body rand p hp
    cases body with
    | malformed => simp [handleCreate] at hp
    | parsed longUrl customId =>
      unfold handleCreate at hp
      by_cases hurl : isValidUrl (jsToString longUrl) = true
      · rcases customId with _ | cid
        · simp [hurl, jsTruthyOpt] at hp
          subst hp
          exact ⟨hurl, isValidUrl_ne_empty _ hurl⟩
        · by_cases hcid : jsTruthy cid = true
          · by_cases hid : isValidCustomId cid = true
            · rcases hrf : env.readFails with _ | _
              · rcases hex : kvLookup env.store cid with _ | v
                · simp [hurl, jsTruthyOpt, hcid, hid, kvGet, hrf, hex] at hp
                  subst hp
                  exact ⟨hurl, isValidUrl_ne_empty _ hurl⟩
                · by_cases hv : jsTruthy v = true
                  · simp [hurl, jsTruthyOpt, hcid, hid, kvGet, hrf, hex, hv] at hp
                  · simp [hurl, jsTruthyOpt, hcid, hid, kvGet, hrf, hex, hv] at hp
                    subst hp
                    exact ⟨hurl, isValidUrl_ne_empty _ hurl⟩
              · simp [hurl, jsTruthyOpt, hcid, hid, kvGet, hrf] at hp
            · simp [hurl, jsTruthyOpt, hcid, hid] at hp
          · simp [hurl, jsTruthyOpt, hcid] at hp
            subst hp
            exact ⟨hurl, isValidUrl_ne_empty _ hurl⟩
      · simp [hurl] at hp
  · intro st k hne
    cases hl : kvLookup st k with
    | none => simp [jsTruthyOpt]
    | some v =>
      have hmem := kvLookup_mem st k v hl
      have hvne : v ≠ "" := hne (k, v) hmem
      simp [jsTruthyOpt, jsTruthy, hvne]

/-- Claim C10 witness: a put issued by a concrete create carries a valid,
non-empty URL, and truthiness agrees with presence on a concrete store. -/
theorem C10_store_values_truthy_witness :
    (isValidUrl "https://example.com" = true ∧ "https://example.com" ≠ "") ∧
    (jsTruthyOpt (kvLookup [("aa", "https://x.example/")] "aa") = true ↔
      (kvLookup [("aa", "https://x.example/")] "aa").isSome = true) :=
  ⟨C10_store_values_truthy.1 ⟨[], false⟩ "https://sho.rt"
      (.parsed (some "https://example.com") none) randABC123
      ("abc123", "https://example.com") (by decide),
   C10_store_values_truthy.2 [("aa", "https://x.example/")] "aa" (by decide)⟩

end Tiaozhuan
